import Mathlib

/-!
Shallow embedding of `vimview.py`, a gdb plugin that drives a remote vim
instance.  The `VimView` class keeps the connection identity (`serverName`,
`binaryName`, the stored command template `cmd`, the open-mode flag
`cmdFileArg`) and the last requested location (`curFile`, `curLine`).
Python string-or-`None` values are `Option String`; Python lists may hold
`None`, hence `List (Option String)` for command lines; a line number is
`Option Nat` (`None` or an `int`).

Effectful statements of a method are recorded as an ordered event trace
(`Ev`), in source order: assignments to the current-location fields, a
`subprocess.Popen` launch, and the `communicate()` call, which waits for the
launched process to terminate.  External collaborators are parameters: the
filesystem is `isfile : String → Bool` (for `os.path.isfile`), the external
process behaviour is `run : List (Option String) → List Nat × List Nat`
(argv to raw stdout/stderr bytes), byte decoding is
`decode : List Nat → String` (for `bytes.decode`), and the gdb-side hook
registries are a registration counter (for `gdb.events.stop`) and a hook
slot (for `gdb.prompt_hook`).
-/

/-- One observable effect performed by a `VimView` method.  For `popen`,
`capture = true` means stdout/stderr are connected to pipes
(`subprocess.PIPE`), `capture = false` means they are redirected to the
null-device handle.  `wait` is the `communicate()` call on the launched
process, which blocks until the process terminates. -/
inductive Ev where
  | setCurFile (file : Option String)
  | setCurLine (line : Option Nat)
  | popen (cmd : List (Option String)) (capture : Bool)
  | wait
  deriving DecidableEq, Repr

/-- State of the `VimView` object (`vimview.py` lines 54-67).  The
null-device handle and the `debug` flag are omitted: `debug` stays `False`
and `dbgPrint` then writes nothing. -/
structure VimView where
  serverName : Option String
  binaryName : Option String
  cmd : List (Option String)
  cmdFileArg : Option String
  curFile : Option String
  curLine : Option Nat
  deriving DecidableEq, Repr

/-- `VimView.setCommand` (lines 76-86): a `None` or empty-string argument is
falsy in Python and leaves the field unchanged; `useTabs` is compared with
`== True` / `== False`, so only those two values select a flag.  The stored
command template is rebuilt from the (new) field values on every call. -/
def VimView.setCommand (v : VimView) (serverName binaryName : Option String)
    (useTabs : Option Bool) : VimView :=
  let sn := match serverName with
    | some s => if s = "" then v.serverName else some s
    | none => v.serverName
  let bn := match binaryName with
    | some s => if s = "" then v.binaryName else some s
    | none => v.binaryName
  let fa := match useTabs with
    | some true => some "--remote-tab"
    | some false => some "--remote"
    | none => v.cmdFileArg
  { serverName := sn, binaryName := bn,
    cmd := [bn, some "+q", some "--servername", sn],
    cmdFileArg := fa, curFile := v.curFile, curLine := v.curLine }

/-- `VimView.__init__` (lines 55-67): every field starts as `None` (the
not-yet-built command list is the empty list), then
`setCommand(serverName='gdb', binaryName='vim', useTabs=False)` runs. -/
def VimView.initState : VimView :=
  VimView.setCommand
    { serverName := none, binaryName := none, cmd := [], cmdFileArg := none,
      curFile := none, curLine := none }
    (some "gdb") (some "vim") (some false)

/-- `VimView.execCmd` (lines 88-103): build `cmd + ['--remote-expr', command]`,
launch it with stdout and stderr piped, and `communicate()` (wait and drain
both pipes fully).  Python decodes only truthy (non-empty) byte strings and
returns empty output unchanged; empty bytes and empty text are both
represented here by `""`, so each component is `decode` of the bytes when
non-empty and `""` otherwise.  The returned pair is `(out, err)`; the event
trace records the captured launch followed by the wait. -/
def VimView.execCmd (v : VimView)
    (run : List (Option String) → List Nat × List Nat)
    (decode : List Nat → String) (command : String) :
    (String × String) × List Ev :=
  let cmd := v.cmd ++ [some "--remote-expr", some command]
  let out := (run cmd).1
  let err := (run cmd).2
  ((if out = [] then "" else decode out,
    if err = [] then "" else decode err),
   [Ev.popen cmd true, Ev.wait])

/-- Result of `VimView.openFile`: the returned boolean, the object state
after the call, and the effect trace. -/
structure OpenResult where
  ret : Bool
  state : VimView
  events : List Ev
  deriving DecidableEq, Repr

/-- The remote-open argv built by `VimView.openFile` (lines 112-115):
`if lineNo:` is truthy only for a non-`None`, non-zero line, and only then
is the `'+' + str(lineNo)` positional directive inserted before the path. -/
def VimView.openFileCmd (v : VimView) (fileName : String)
    (lineNo : Option Nat) : List (Option String) :=
  match lineNo with
  | some n =>
      if n = 0 then v.cmd ++ [v.cmdFileArg, some fileName]
      else v.cmd ++ [v.cmdFileArg, some ("+" ++ toString n), some fileName]
  | none => v.cmd ++ [v.cmdFileArg, some fileName]

/-- `VimView.openFile` (lines 105-124): the dedup guard
(`not reopen and (fileName == self.curFile and lineNo == self.curLine)`),
the existence guard (`existingOnly and not os.path.isfile(fileName)`),
command construction (`openFileCmd`), recording of `curFile` and `curLine`,
the launch with stdout/stderr sent to the null device, and
`communicate()`. -/
def VimView.openFile (v : VimView) (isfile : String → Bool)
    (fileName : String) (lineNo : Option Nat) (existingOnly reopen : Bool) :
    OpenResult :=
  if reopen = false ∧ v.curFile = some fileName ∧ v.curLine = lineNo then
    ⟨false, v, []⟩
  else if existingOnly = true ∧ isfile fileName = false then
    ⟨false, v, []⟩
  else
    let cmd := v.openFileCmd fileName lineNo
    ⟨true, { v with curFile := some fileName, curLine := lineNo },
     [Ev.setCurFile (some fileName), Ev.setCurLine lineNo,
      Ev.popen cmd false, Ev.wait]⟩

/-- Whether an event is a process launch. -/
def Ev.isPopen : Ev → Bool
  | Ev.popen _ _ => true
  | _ => false

/-- Number of external processes launched by an `openFile` call. -/
def OpenResult.launches (r : OpenResult) : Nat :=
  (r.events.filter Ev.isPopen).length

/-- The events an `openFile` call performs strictly before its first process
launch. -/
def OpenResult.eventsBeforeLaunch (r : OpenResult) : List Ev :=
  r.events.takeWhile (fun e => !Ev.isPopen e)

/-- Configuration invariant of `VimView`: `serverName` and `binaryName` hold
non-empty strings and the stored command template is
`[binaryName, '+q', '--servername', serverName]` over the current fields. -/
def VimView.configGood (v : VimView) : Prop :=
  (∃ s, v.serverName = some s ∧ s ≠ "") ∧
  (∃ s, v.binaryName = some s ∧ s ≠ "") ∧
  v.cmd = [v.binaryName, some "+q", some "--servername", v.serverName]

/-- A sequence of configuration updates (`vimview-server`,
`vimview-command`, `vimview-tabs` parameter writes all funnel into
`setCommand`). -/
def VimView.applyConfigs (v : VimView) :
    List (Option String × Option String × Option Bool) → VimView
  | [] => v
  | (sn, bn, ut) :: rest => (v.setCommand sn bn ut).applyConfigs rest

/-- `ParamVimViewOnStop` state: the `gdb.PARAM_AUTO_BOOLEAN` value
(`some true` / `some false` / `none` for auto) and the `isHooked` flag. -/
structure StopParam where
  value : Option Bool
  isHooked : Bool
  deriving DecidableEq, Repr

/-- `ParamVimViewOnStop.__init__` (lines 248-252): `value = False`, the
class-level `isHooked` is `False`. -/
def StopParam.init : StopParam := ⟨some false, false⟩

/-- `ParamVimViewOnStop.get_set_string` (lines 256-268): a `None` value
resolves to `_isVimServerNameVariableSet()` (the parameter `envSet`, true
exactly when `VIMSERVER` is present); then `eventStop` is connected to
`gdb.events.stop` when the value is truthy and not yet hooked, and
disconnected when falsy and hooked.  `conns` counts the registrations of
`eventStop` on `gdb.events.stop`. -/
def StopParam.getSetString (envSet : Bool) (p : StopParam) (conns : Nat) :
    StopParam × Nat :=
  let v : Bool := match p.value with
    | none => envSet
    | some b => b
  if v = true then
    if p.isHooked = false then (⟨some v, true⟩, conns + 1)
    else (⟨some v, p.isHooked⟩, conns)
  else
    if p.isHooked = true then (⟨some v, false⟩, conns - 1)
    else (⟨some v, p.isHooked⟩, conns)

/-- One `set vimview-onstop <x>` command: gdb stores the parsed value into
`self.value` and then calls `get_set_string`. -/
def StopParam.update (envSet : Bool) (newValue : Option Bool) (p : StopParam)
    (conns : Nat) : StopParam × Nat :=
  StopParam.getSetString envSet ⟨newValue, p.isHooked⟩ conns

/-- A sequence of `set vimview-onstop` commands, each with the environment
state at that moment and the stored value. -/
def StopParam.runUpdates (p : StopParam) (conns : Nat) :
    List (Bool × Option Bool) → StopParam × Nat
  | [] => (p, conns)
  | (env, nv) :: rest =>
      let s := StopParam.update env nv p conns
      StopParam.runUpdates s.1 s.2 rest

/-- Hook/registration invariant of the on-stop policy: the `isHooked` flag
holds exactly when the (resolved) value is `On`, and the number of
`eventStop` registrations is 1 when hooked and 0 otherwise. -/
def StopParam.inv (p : StopParam) (conns : Nat) : Prop :=
  (p.isHooked = true ↔ p.value = some true) ∧
    conns = (if p.isHooked then 1 else 0)

/-- A value of `gdb.prompt_hook`: `noHook` is `None`, `vvPrompt` is the
module's own `prompt` function, `ext n` is any other externally installed
hook. -/
inductive Hook where
  | noHook
  | vvPrompt
  | ext (n : Nat)
  deriving DecidableEq, Repr

/-- `ParamVimViewOnPrompt` state: the `gdb.PARAM_AUTO_BOOLEAN` value and the
saved `prevHook`. -/
structure PromptParam where
  value : Option Bool
  prevHook : Hook
  deriving DecidableEq, Repr

/-- `ParamVimViewOnPrompt.get_set_string` (lines 285-296): a `None` value
resolves against the environment; when truthy and the global hook `gh`
(`gdb.prompt_hook`) is not already the module's `prompt`, the previous hook
is saved and `prompt` installed; when falsy, the saved hook is written back
to `gdb.prompt_hook`.  Returns the new parameter state and the new global
hook. -/
def PromptParam.getSetString (envSet : Bool) (p : PromptParam) (gh : Hook) :
    PromptParam × Hook :=
  let v : Bool := match p.value with
    | none => envSet
    | some b => b
  if v = true then
    if gh ≠ Hook.vvPrompt then (⟨some v, gh⟩, Hook.vvPrompt)
    else (⟨some v, p.prevHook⟩, gh)
  else (⟨some v, p.prevHook⟩, p.prevHook)

/-- One `set vimview-onprompt <x>` command: gdb stores the parsed value and
then calls `get_set_string`. -/
def PromptParam.update (envSet : Bool) (newValue : Option Bool)
    (p : PromptParam) (gh : Hook) : PromptParam × Hook :=
  PromptParam.getSetString envSet ⟨newValue, p.prevHook⟩ gh

/-- When the dedup guard fires, `openFile` is a pure no-op returning
`False`. -/
theorem VimView.openFile_dedup_eq (v : VimView) (isfile : String → Bool)
    (p : String) (l : Option Nat) (eo reopen : Bool)
    (hg : reopen = false ∧ v.curFile = some p ∧ v.curLine = l) :
    v.openFile isfile p l eo reopen = ⟨false, v, []⟩ := by
  unfold VimView.openFile
  rw [if_pos hg]

/-- When the dedup guard passes but the existence guard fires, `openFile` is
a pure no-op returning `False`. -/
theorem VimView.openFile_missing_eq (v : VimView) (isfile : String → Bool)
    (p : String) (l : Option Nat) (eo reopen : Bool)
    (hg1 : ¬(reopen = false ∧ v.curFile = some p ∧ v.curLine = l))
    (hg2 : eo = true ∧ isfile p = false) :
    v.openFile isfile p l eo reopen = ⟨false, v, []⟩ := by
  unfold VimView.openFile
  rw [if_neg hg1, if_pos hg2]

/-- When both guards pass, `openFile` records the location, launches the
remote-open command with output discarded, waits, and returns `True`. -/
theorem VimView.openFile_launch_eq (v : VimView) (isfile : String → Bool)
    (p : String) (l : Option Nat) (eo reopen : Bool)
    (hg1 : ¬(reopen = false ∧ v.curFile = some p ∧ v.curLine = l))
    (hg2 : ¬(eo = true ∧ isfile p = false)) :
    v.openFile isfile p l eo reopen =
      ⟨true, { v with curFile := some p, curLine := l },
       [Ev.setCurFile (some p), Ev.setCurLine l,
        Ev.popen (v.openFileCmd p l) false, Ev.wait]⟩ := by
  unfold VimView.openFile
  rw [if_neg hg1, if_neg hg2]

/-- A no-op `openFile` result launches nothing. -/
theorem OpenResult.launches_noop (b : Bool) (v : VimView) :
    OpenResult.launches ⟨b, v, []⟩ = 0 := rfl

/-- A successful `openFile` result launches exactly once. -/
theorem OpenResult.launches_launchTrace (b : Bool) (v : VimView)
    (f : Option String) (l : Option Nat) (c : List (Option String))
    (cap : Bool) :
    OpenResult.launches
      ⟨b, v, [Ev.setCurFile f, Ev.setCurLine l, Ev.popen c cap, Ev.wait]⟩
      = 1 := rfl

/-- C7: for a path that is not an existing regular file, `openFile` with
`existingOnly = true` returns `False`, performs no effect at all (in
particular launches no external process), and leaves the entire state —
`curFile` and `curLine` included — unchanged. -/
theorem openFile_existence_guard (v : VimView) (isfile : String → Bool)
    (p : String) (l : Option Nat) (reopen : Bool)
    (h : isfile p = false) :
    (v.openFile isfile p l true reopen).ret = false ∧
    (v.openFile isfile p l true reopen).events = [] ∧
    (v.openFile isfile p l true reopen).state = v := by
  by_cases hg1 : reopen = false ∧ v.curFile = some p ∧ v.curLine = l
  · rw [VimView.openFile_dedup_eq v isfile p l true reopen hg1]
    exact ⟨rfl, rfl, rfl⟩
  · rw [VimView.openFile_missing_eq v isfile p l true reopen hg1 ⟨rfl, h⟩]
    exact ⟨rfl, rfl, rfl⟩

/-- C7 witness: opening a nonexistent path from the initial state fails with
no effects. -/
theorem openFile_existence_guard_witness :
    (VimView.initState.openFile (fun _ => false) "/does/not/exist" (some 1)
      true false).ret = false ∧
    (VimView.initState.openFile (fun _ => false) "/does/not/exist" (some 1)
      true false).events = [] ∧
    (VimView.initState.openFile (fun _ => false) "/does/not/exist" (some 1)
      true false).state = VimView.initState :=
  openFile_existence_guard VimView.initState (fun _ => false)
    "/does/not/exist" (some 1) false rfl

/-- C6: whenever both the dedup guard and the existence guard pass,
`openFile` assigns `curFile` and `curLine` to the requested location — both
fields, and both strictly before the process launch (they are exactly the
events preceding the first launch) — and returns `True`. -/
theorem openFile_records_before_launch (v : VimView)
    (isfile : String → Bool) (p : String) (l : Option Nat) (eo reopen : Bool)
    (hg1 : ¬(reopen = false ∧ v.curFile = some p ∧ v.curLine = l))
    (hg2 : ¬(eo = true ∧ isfile p = false)) :
    (v.openFile isfile p l eo reopen).ret = true ∧
    (v.openFile isfile p l eo reopen).state.curFile = some p ∧
    (v.openFile isfile p l eo reopen).state.curLine = l ∧
    (v.openFile isfile p l eo reopen).eventsBeforeLaunch =
      [Ev.setCurFile (some p), Ev.setCurLine l] ∧
    (v.openFile isfile p l eo reopen).launches = 1 := by
  rw [VimView.openFile_launch_eq v isfile p l eo reopen hg1 hg2]
  refine ⟨rfl, rfl, rfl, ?_, rfl⟩
  simp [OpenResult.eventsBeforeLaunch, Ev.isPopen]

/-- C6 witness: a concrete successful open records `("/src/main.c", 42)`
before launching. -/
theorem openFile_records_before_launch_witness :
    (VimView.initState.openFile (fun _ => true) "/src/main.c" (some 42)
      true false).ret = true ∧
    (VimView.initState.openFile (fun _ => true) "/src/main.c" (some 42)
      true false).state.curFile = some "/src/main.c" ∧
    (VimView.initState.openFile (fun _ => true) "/src/main.c" (some 42)
      true false).state.curLine = some 42 ∧
    (VimView.initState.openFile (fun _ => true) "/src/main.c" (some 42)
      true false).eventsBeforeLaunch =
      [Ev.setCurFile (some "/src/main.c"), Ev.setCurLine (some 42)] ∧
    (VimView.initState.openFile (fun _ => true) "/src/main.c" (some 42)
      true false).launches = 1 :=
  openFile_records_before_launch VimView.initState (fun _ => true)
    "/src/main.c" (some 42) true false (by decide) (by decide)

/-- C1 counterexample: on a fresh state with no file existing,
`openFile("/does/not/exist", 1)` returns `False` and launches nothing even
though `("/does/not/exist", 1)` differs from the recorded
`(curFile, curLine)` pair — so "returns false and launches no process
exactly when (p, l) equals the last recorded pair" fails: the existence
guard is a second, independent source of `False`. -/
theorem openFile_dedup_iff_cex :
    (VimView.initState.openFile (fun _ => false) "/does/not/exist" (some 1)
      true false).ret = false ∧
    (VimView.initState.openFile (fun _ => false) "/does/not/exist" (some 1)
      true false).launches = 0 ∧
    ¬(VimView.initState.curFile = some "/does/not/exist" ∧
      VimView.initState.curLine = some 1) := by
  decide

/-- C1 (amended): with `forceReopen = false`, `openFile(p, l)` returns
`False` and launches nothing whenever `(p, l)` equals the recorded
`(curFile, curLine)` pair, and — provided the existence guard passes
(`existingOnly = false` or the path is an existing regular file) — exactly
when it equals that pair.  Two consecutive calls with the same `(p, l)`
launch at most once and the second returns `False` (unconditionally), while
`openFile(p, 1)` followed by `openFile(p, 2)` launches both times when `p`
exists and `(p, 1)` is not the recorded pair, since the line is part of the
composite dedup key. -/
theorem openFile_dedup_guard (v : VimView) (isfile : String → Bool)
    (p : String) (l : Option Nat) (eo : Bool) :
    (v.curFile = some p ∧ v.curLine = l →
      (v.openFile isfile p l eo false).ret = false ∧
      (v.openFile isfile p l eo false).launches = 0) ∧
    ((eo = false ∨ isfile p = true) →
      ((v.openFile isfile p l eo false).ret = false ∧
        (v.openFile isfile p l eo false).launches = 0 ↔
        v.curFile = some p ∧ v.curLine = l)) ∧
    ((v.openFile isfile p l eo false).state.openFile isfile p l eo
      false).ret = false ∧
    (v.openFile isfile p l eo false).launches +
      ((v.openFile isfile p l eo false).state.openFile isfile p l eo
        false).launches ≤ 1 ∧
    (isfile p = true → ¬(v.curFile = some p ∧ v.curLine = some 1) →
      (v.openFile isfile p (some 1) true false).launches = 1 ∧
      ((v.openFile isfile p (some 1) true false).state.openFile isfile p
        (some 2) true false).launches = 1) := by
  have hded : ∀ (l' : Option Nat), v.curFile = some p ∧ v.curLine = l' →
      v.openFile isfile p l' eo false = ⟨false, v, []⟩ := fun l' h =>
    VimView.openFile_dedup_eq v isfile p l' eo false ⟨rfl, h.1, h.2⟩
  refine ⟨?_, ?_, ?_, ?_, ?_⟩
  · intro h
    rw [hded l h]
    exact ⟨rfl, rfl⟩
  · intro hok
    constructor
    · intro hres
      by_cases hg1 : (false = false ∧ v.curFile = some p ∧ v.curLine = l)
      · exact ⟨hg1.2.1, hg1.2.2⟩
      · by_cases hg2 : (eo = true ∧ isfile p = false)
        · rcases hok with hoke | hokf
          · rw [hoke] at hg2
            exact absurd hg2.1 (by simp)
          · rw [hokf] at hg2
            exact absurd hg2.2 (by simp)
        · rw [VimView.openFile_launch_eq v isfile p l eo false hg1 hg2]
            at hres
          exact absurd hres.1 (by simp)
    · intro h
      rw [hded l h]
      exact ⟨rfl, rfl⟩
  · by_cases hg1 : (false = false ∧ v.curFile = some p ∧ v.curLine = l)
    · rw [VimView.openFile_dedup_eq v isfile p l eo false hg1,
        VimView.openFile_dedup_eq v isfile p l eo false hg1]
    · by_cases hg2 : (eo = true ∧ isfile p = false)
      · rw [VimView.openFile_missing_eq v isfile p l eo false hg1 hg2,
          VimView.openFile_missing_eq v isfile p l eo false hg1 hg2]
      · rw [VimView.openFile_launch_eq v isfile p l eo false hg1 hg2]
        show (VimView.openFile { v with curFile := some p, curLine := l }
          isfile p l eo false).ret = false
        rw [VimView.openFile_dedup_eq
          { v with curFile := some p, curLine := l } isfile p l eo false
          ⟨rfl, rfl, rfl⟩]
  · by_cases hg1 : (false = false ∧ v.curFile = some p ∧ v.curLine = l)
    · rw [VimView.openFile_dedup_eq v isfile p l eo false hg1,
        VimView.openFile_dedup_eq v isfile p l eo false hg1]
      exact Nat.zero_le 1
    · by_cases hg2 : (eo = true ∧ isfile p = false)
      · rw [VimView.openFile_missing_eq v isfile p l eo false hg1 hg2,
          VimView.openFile_missing_eq v isfile p l eo false hg1 hg2]
        exact Nat.zero_le 1
      · rw [VimView.openFile_launch_eq v isfile p l eo false hg1 hg2]
        show OpenResult.launches
            ⟨true, { v with curFile := some p, curLine := l },
             [Ev.setCurFile (some p), Ev.setCurLine l,
              Ev.popen (v.openFileCmd p l) false, Ev.wait]⟩ +
          (VimView.openFile { v with curFile := some p, curLine := l }
            isfile p l eo false).launches ≤ 1
        rw [VimView.openFile_dedup_eq
          { v with curFile := some p, curLine := l } isfile p l eo false
          ⟨rfl, rfl, rfl⟩]
        exact Nat.le_refl 1
  · intro hfile hne
    have hg1 : ¬(false = false ∧ v.curFile = some p ∧ v.curLine = some 1) :=
      fun h => hne ⟨h.2.1, h.2.2⟩
    have hg2 : ¬(true = true ∧ isfile p = false) := fun h => by
      rw [hfile] at h
      exact absurd h.2 (by simp)
    rw [VimView.openFile_launch_eq v isfile p (some 1) true false hg1 hg2]
    have hg1' : ¬(false = false ∧
        ({ v with curFile := some p, curLine := some 1 } :
          VimView).curFile = some p ∧
        ({ v with curFile := some p, curLine := some 1 } :
          VimView).curLine = some 2) := by
      intro h
      exact absurd h.2.2 (by simp)
    rw [VimView.openFile_launch_eq _ isfile p (some 2) true false hg1' hg2]
    exact ⟨rfl, rfl⟩

/-- C1 witness: concrete instances — the dedup no-op on a state already at
`("/a", 3)`, the equivalence with the file existing, and the
`(p, 1)`-then-`(p, 2)` double launch from a fresh state. -/
theorem openFile_dedup_guard_witness :
    (((VimView.initState.openFile (fun _ => true) "/a" (some 3) true
        false).state.openFile (fun _ => true) "/a" (some 3) true
        false).ret = false ∧
      ((VimView.initState.openFile (fun _ => true) "/a" (some 3) true
        false).state.openFile (fun _ => true) "/a" (some 3) true
        false).launches = 0) ∧
    ((VimView.initState.openFile (fun _ => true) "/a" (some 3) true
        false).ret = false ∧
      (VimView.initState.openFile (fun _ => true) "/a" (some 3) true
        false).launches = 0 ↔
      VimView.initState.curFile = some "/a" ∧
      VimView.initState.curLine = some 3) ∧
    (VimView.initState.openFile (fun _ => true) "/a" (some 1) true
      false).launches = 1 ∧
    ((VimView.initState.openFile (fun _ => true) "/a" (some 1) true
      false).state.openFile (fun _ => true) "/a" (some 2) true
      false).launches = 1 :=
  ⟨(openFile_dedup_guard
      (VimView.initState.openFile (fun _ => true) "/a" (some 3) true
        false).state (fun _ => true) "/a" (some 3) true).1 (by decide),
   (openFile_dedup_guard VimView.initState (fun _ => true) "/a" (some 3)
      true).2.1 (Or.inr rfl),
   (openFile_dedup_guard VimView.initState (fun _ => true) "/a" (some 3)
      true).2.2.2.2 rfl (by decide)⟩

/-- C2 counterexample: a concrete successful `openFile` launches exactly one
process and its effect trace contains the wait on that process — line 123
calls `communicate()`, which blocks until the launched process terminates,
so `openFile` does not return without requiring the process to complete. -/
theorem openFile_no_wait_cex :
    (VimView.initState.openFile (fun _ => true) "/src/main.c" (some 42)
      true false).launches = 1 ∧
    Ev.wait ∈ (VimView.initState.openFile (fun _ => true) "/src/main.c"
      (some 42) true false).events := by
  decide

/-- C2 (amended): whenever `openFile` launches, it launches with stdout and
stderr discarded (`capture = false`) and then waits for the launched process
(`communicate()`), just like `evaluate`/`execCmd` does; the two differ only
in that `execCmd` captures the output (`capture = true`) while `openFile`
discards it. -/
theorem openFile_launch_waits (v : VimView) (isfile : String → Bool)
    (p : String) (l : Option Nat) (eo reopen : Bool)
    (hg1 : ¬(reopen = false ∧ v.curFile = some p ∧ v.curLine = l))
    (hg2 : ¬(eo = true ∧ isfile p = false)) :
    (v.openFile isfile p l eo reopen).events =
      [Ev.setCurFile (some p), Ev.setCurLine l,
       Ev.popen (v.openFileCmd p l) false, Ev.wait] ∧
    Ev.wait ∈ (v.openFile isfile p l eo reopen).events ∧
    ∀ (run : List (Option String) → List Nat × List Nat)
      (decode : List Nat → String) (e : String),
      (v.execCmd run decode e).2 =
        [Ev.popen (v.cmd ++ [some "--remote-expr", some e]) true,
         Ev.wait] := by
  rw [VimView.openFile_launch_eq v isfile p l eo reopen hg1 hg2]
  refine ⟨rfl, by simp, fun run decode e => rfl⟩

/-- C2 witness: the amended statement at a concrete open and a concrete
evaluation. -/
theorem openFile_launch_waits_witness :
    (VimView.initState.openFile (fun _ => true) "/src/main.c" (some 42)
      true false).events =
      [Ev.setCurFile (some "/src/main.c"), Ev.setCurLine (some 42),
       Ev.popen (VimView.initState.openFileCmd "/src/main.c" (some 42))
         false, Ev.wait] ∧
    Ev.wait ∈ (VimView.initState.openFile (fun _ => true) "/src/main.c"
      (some 42) true false).events ∧
    (VimView.initState.execCmd (fun _ => ([52], [])) (fun _ => "4")
      "2+2").2 =
      [Ev.popen (VimView.initState.cmd ++
        [some "--remote-expr", some "2+2"]) true, Ev.wait] :=
  ⟨(openFile_launch_waits VimView.initState (fun _ => true) "/src/main.c"
      (some 42) true false (by decide) (by decide)).1,
   (openFile_launch_waits VimView.initState (fun _ => true) "/src/main.c"
      (some 42) true false (by decide) (by decide)).2.1,
   (openFile_launch_waits VimView.initState (fun _ => true) "/src/main.c"
      (some 42) true false (by decide) (by decide)).2.2
     (fun _ => ([52], [])) (fun _ => "4") "2+2"⟩

/-- C3: `execCmd` runs `cmd + ['--remote-expr', expression]` with stdout and
stderr captured and waits for the process (its event trace is the captured
launch followed by the wait); non-empty captured bytes are decoded to text
and the pair `(output, error)` is returned; when the error stream is empty
the error component is the empty string (success), and against a
nonexistent server — empty stdout, non-empty stderr decoding to non-empty
text — the result is an empty output string paired with that non-empty
error text. -/
theorem execCmd_evaluate (v : VimView)
    (run : List (Option String) → List Nat × List Nat)
    (decode : List Nat → String) (c : String) :
    (v.execCmd run decode c).2 =
      [Ev.popen (v.cmd ++ [some "--remote-expr", some c]) true, Ev.wait] ∧
    (∀ o e, run (v.cmd ++ [some "--remote-expr", some c]) = (o, e) →
      o ≠ [] → (v.execCmd run decode c).1.1 = decode o) ∧
    (∀ o, run (v.cmd ++ [some "--remote-expr", some c]) = (o, []) →
      (v.execCmd run decode c).1.2 = "") ∧
    (∀ e, run (v.cmd ++ [some "--remote-expr", some c]) = ([], e) →
      e ≠ [] → decode e ≠ "" →
      (v.execCmd run decode c).1.1 = "" ∧
      (v.execCmd run decode c).1.2 = decode e ∧
      (v.execCmd run decode c).1.2 ≠ "") := by
  refine ⟨rfl, ?_, ?_, ?_⟩
  · intro o e h ho
    simp only [VimView.execCmd]
    rw [h]
    simp [ho]
  · intro o h
    simp only [VimView.execCmd]
    rw [h]
    simp
  · intro e h he hd
    simp only [VimView.execCmd]
    rw [h]
    simp [he, hd]

/-- C3 witness: a live server answering `4` gives `("4", "")`; a nonexistent
server gives an empty output and non-empty error text. -/
theorem execCmd_evaluate_witness :
    (VimView.initState.execCmd (fun _ => ([52], []))
      (fun b => if b = [] then "" else "4") "2+2").1.1 = "4" ∧
    (VimView.initState.execCmd (fun _ => ([52], []))
      (fun b => if b = [] then "" else "4") "2+2").1.2 = "" ∧
    ((VimView.initState.execCmd (fun _ => ([], [69]))
        (fun b => if b = [] then "" else "E247: no server") "2+2").1.1 =
        "" ∧
      (VimView.initState.execCmd (fun _ => ([], [69]))
        (fun b => if b = [] then "" else "E247: no server") "2+2").1.2 =
        "E247: no server" ∧
      (VimView.initState.execCmd (fun _ => ([], [69]))
        (fun b => if b = [] then "" else "E247: no server") "2+2").1.2 ≠
        "") :=
  ⟨(execCmd_evaluate VimView.initState (fun _ => ([52], []))
      (fun b => if b = [] then "" else "4") "2+2").2.1 [52] [] rfl
      (by decide),
   (execCmd_evaluate VimView.initState (fun _ => ([52], []))
      (fun b => if b = [] then "" else "4") "2+2").2.2.1 [52] rfl,
   (execCmd_evaluate VimView.initState (fun _ => ([], [69]))
      (fun b => if b = [] then "" else "E247: no server") "2+2").2.2.2 [69]
      rfl (by decide) (by decide)⟩

/-- C10: a line number of 0 is falsy in `if lineNo:`, so the remote-open
argv for line 0 carries no `'+<line>'` directive and equals the argv built
with no line at all; the directive appears exactly for non-zero line
numbers; and the dedup guard still compares the line by exact equality, so
with `(curFile, curLine) = (p, 0)` a call for `(p, None)` is not deduped and
launches. -/
theorem openFile_falsy_line (v : VimView) (isfile : String → Bool)
    (p : String) :
    v.openFileCmd p (some 0) = v.cmd ++ [v.cmdFileArg, some p] ∧
    v.openFileCmd p (some 0) = v.openFileCmd p none ∧
    (∀ n : Nat, n ≠ 0 → v.openFileCmd p (some n) =
      v.cmd ++ [v.cmdFileArg, some ("+" ++ toString n), some p]) ∧
    (∀ eo reopen,
      ¬(reopen = false ∧ v.curFile = some p ∧ v.curLine = some 0) →
      ¬(eo = true ∧ isfile p = false) →
      (v.openFile isfile p (some 0) eo reopen).events =
        [Ev.setCurFile (some p), Ev.setCurLine (some 0),
         Ev.popen (v.cmd ++ [v.cmdFileArg, some p]) false, Ev.wait]) ∧
    (v.curFile = some p → v.curLine = some 0 → isfile p = true →
      (v.openFile isfile p none true false).ret = true) := by
  refine ⟨rfl, rfl, ?_, ?_, ?_⟩
  · intro n hn
    simp [VimView.openFileCmd, hn]
  · intro eo reopen hg1 hg2
    rw [VimView.openFile_launch_eq v isfile p (some 0) eo reopen hg1 hg2]
    simp [VimView.openFileCmd]
  · intro hf hl hfile
    have hg1 : ¬(false = false ∧ v.curFile = some p ∧ v.curLine = none) := by
      intro h
      rw [hl] at h
      exact absurd h.2.2 (by simp)
    have hg2 : ¬(true = true ∧ isfile p = false) := by
      intro h
      rw [hfile] at h
      exact absurd h.2 (by simp)
    rw [VimView.openFile_launch_eq v isfile p none true false hg1 hg2]

/-- C10 witness: concrete command lines for lines 0, none and 7 on the
initial state, and the none-vs-0 dedup distinction at `("/a", 0)`. -/
theorem openFile_falsy_line_witness :
    VimView.initState.openFileCmd "/a" (some 0) =
      VimView.initState.cmd ++ [VimView.initState.cmdFileArg, some "/a"] ∧
    VimView.initState.openFileCmd "/a" (some 7) =
      VimView.initState.cmd ++
        [VimView.initState.cmdFileArg, some "+7", some "/a"] ∧
    ((VimView.initState.openFile (fun _ => true) "/a" (some 0) true
        false).events =
      [Ev.setCurFile (some "/a"), Ev.setCurLine (some 0),
       Ev.popen (VimView.initState.cmd ++
         [VimView.initState.cmdFileArg, some "/a"]) false, Ev.wait]) ∧
    ({ VimView.initState with curFile := some "/a", curLine := some 0
      }.openFile (fun _ => true) "/a" none true false).ret = true :=
  ⟨(openFile_falsy_line VimView.initState (fun _ => true) "/a").1,
   (openFile_falsy_line VimView.initState (fun _ => true) "/a").2.2.1 7
     (by decide),
   (openFile_falsy_line VimView.initState (fun _ => true) "/a").2.2.2.1
     true false (by decide) (by decide),
   (openFile_falsy_line
      { VimView.initState with curFile := some "/a", curLine := some 0 }
      (fun _ => true) "/a").2.2.2.2 rfl rfl rfl⟩

/-- Field characterization: an absent `serverName` argument leaves the
field. -/
theorem VimView.setCommand_serverName_none (v : VimView)
    (bn : Option String) (ut : Option Bool) :
    (v.setCommand none bn ut).serverName = v.serverName := rfl

/-- Field characterization: a provided `serverName` is taken only when
truthy (non-empty). -/
theorem VimView.setCommand_serverName_some (v : VimView) (s : String)
    (bn : Option String) (ut : Option Bool) :
    (v.setCommand (some s) bn ut).serverName =
      if s = "" then v.serverName else some s := rfl

/-- Field characterization: an absent `binaryName` argument leaves the
field. -/
theorem VimView.setCommand_binaryName_none (v : VimView)
    (sn : Option String) (ut : Option Bool) :
    (v.setCommand sn none ut).binaryName = v.binaryName := rfl

/-- Field characterization: a provided `binaryName` is taken only when
truthy (non-empty). -/
theorem VimView.setCommand_binaryName_some (v : VimView)
    (sn : Option String) (s : String) (ut : Option Bool) :
    (v.setCommand sn (some s) ut).binaryName =
      if s = "" then v.binaryName else some s := rfl

/-- `setCommand` preserves the configuration invariant. -/
theorem VimView.setCommand_configGood (v : VimView)
    (sn bn : Option String) (ut : Option Bool) (h : v.configGood) :
    (v.setCommand sn bn ut).configGood := by
  obtain ⟨⟨s1, hs1, he1⟩, ⟨s2, hs2, he2⟩, _⟩ := h
  refine ⟨?_, ?_, rfl⟩
  · rcases sn with _ | s
    · rw [VimView.setCommand_serverName_none]
      exact ⟨s1, hs1, he1⟩
    · rw [VimView.setCommand_serverName_some]
      by_cases he : s = ""
      · rw [if_pos he]
        exact ⟨s1, hs1, he1⟩
      · rw [if_neg he]
        exact ⟨s, rfl, he⟩
  · rcases bn with _ | s
    · rw [VimView.setCommand_binaryName_none]
      exact ⟨s2, hs2, he2⟩
    · rw [VimView.setCommand_binaryName_some]
      by_cases he : s = ""
      · rw [if_pos he]
        exact ⟨s2, hs2, he2⟩
      · rw [if_neg he]
        exact ⟨s, rfl, he⟩

/-- Every sequence of configuration updates preserves the configuration
invariant. -/
theorem VimView.applyConfigs_configGood
    (us : List (Option String × Option String × Option Bool)) :
    ∀ v : VimView, v.configGood → (v.applyConfigs us).configGood := by
  induction us with
  | nil => exact fun v h => h
  | cons u rest ih =>
      intro v h
      obtain ⟨sn, bn, ut⟩ := u
      exact ih _ (VimView.setCommand_configGood v sn bn ut h)

/-- C8: `setCommand` updates only the fields given a truthy value — a
`None`/empty `serverName` or `binaryName` and an absent `useTabs` leave the
previous values intact with no error, and the location fields are never
touched; after every update the stored command template is
`[binaryName, '+q', '--servername', serverName]`; and along any sequence of
configuration updates from construction, `serverName` and `binaryName` stay
non-empty. -/
theorem setCommand_partial_update :
    (∀ (v : VimView) (sn bn : Option String) (ut : Option Bool),
      ((sn = none ∨ sn = some "") →
        (v.setCommand sn bn ut).serverName = v.serverName) ∧
      ((bn = none ∨ bn = some "") →
        (v.setCommand sn bn ut).binaryName = v.binaryName) ∧
      (ut = none → (v.setCommand sn bn ut).cmdFileArg = v.cmdFileArg) ∧
      (v.setCommand sn bn ut).curFile = v.curFile ∧
      (v.setCommand sn bn ut).curLine = v.curLine ∧
      (v.setCommand sn bn ut).cmd =
        [(v.setCommand sn bn ut).binaryName, some "+q",
         some "--servername", (v.setCommand sn bn ut).serverName]) ∧
    ∀ us, (VimView.initState.applyConfigs us).configGood := by
  constructor
  · intro v sn bn ut
    refine ⟨?_, ?_, ?_, rfl, rfl, rfl⟩
    · rintro (rfl | rfl)
      · rfl
      · rw [VimView.setCommand_serverName_some, if_pos rfl]
    · rintro (rfl | rfl)
      · rfl
      · rw [VimView.setCommand_binaryName_some, if_pos rfl]
    · rintro rfl
      rfl
  · intro us
    exact VimView.applyConfigs_configGood us VimView.initState
      ⟨⟨"gdb", rfl, by decide⟩, ⟨"vim", rfl, by decide⟩, rfl⟩

/-- C8 witness: falsy updates at a concrete state are no-ops, and a concrete
update sequence keeps the invariant. -/
theorem setCommand_partial_update_witness :
    (VimView.initState.setCommand (some "") none none).serverName =
      VimView.initState.serverName ∧
    (VimView.initState.setCommand (some "") none none).binaryName =
      VimView.initState.binaryName ∧
    (VimView.initState.setCommand (some "") none none).cmdFileArg =
      VimView.initState.cmdFileArg ∧
    (VimView.initState.applyConfigs
      [(some "", some "gvim", some true), (none, none, none)]).configGood :=
  ⟨(setCommand_partial_update.1 VimView.initState (some "") none none).1
      (Or.inr rfl),
   (setCommand_partial_update.1 VimView.initState (some "") none none).2.1
      (Or.inl rfl),
   (setCommand_partial_update.1 VimView.initState (some "") none
      none).2.2.1 rfl,
   setCommand_partial_update.2
      [(some "", some "gvim", some true), (none, none, none)]⟩

/-- C4: the first evaluation of an auto (`None`) policy value resolves it to
the presence of the `VIMSERVER` environment variable; a resolved (`True` /
`False`) value is cached — `get_set_string` neither re-reads the
environment nor changes it until the value is explicitly set back to auto;
and enabling via auto from the initial state registers no callback when the
variable is unset and exactly one callback when it is set, with the hooked
flag matching. -/
theorem onStop_auto_resolution (env env2 : Bool) (p : StopParam)
    (conns : Nat) (b : Bool) :
    (p.value = none →
      (StopParam.getSetString env p conns).1.value = some env) ∧
    (p.value = some b →
      StopParam.getSetString env p conns =
        StopParam.getSetString env2 p conns ∧
      (StopParam.getSetString env p conns).1.value = some b) ∧
    StopParam.update env none StopParam.init 0 =
      (⟨some env, env⟩, if env = true then 1 else 0) := by
  obtain ⟨pv, ph⟩ := p
  refine ⟨?_, ?_, ?_⟩
  · intro h
    simp only at h
    subst h
    cases env <;> cases ph <;> simp [StopParam.getSetString]
  · intro h
    simp only at h
    subst h
    cases b <;> cases ph <;> simp [StopParam.getSetString]
  · cases env <;> rfl

/-- C4 witness: auto with the variable set resolves to enabled with one
registration; a resolved value ignores the environment. -/
theorem onStop_auto_resolution_witness :
    (StopParam.getSetString true ⟨none, false⟩ 0).1.value = some true ∧
    StopParam.getSetString false ⟨some true, true⟩ 1 =
      StopParam.getSetString true ⟨some true, true⟩ 1 ∧
    StopParam.update true none StopParam.init 0 =
      (⟨some true, true⟩, if true = true then 1 else 0) ∧
    StopParam.update false none StopParam.init 0 =
      (⟨some false, false⟩, if false = true then 1 else 0) :=
  ⟨(onStop_auto_resolution true true ⟨none, false⟩ 0 true).1 rfl,
   ((onStop_auto_resolution false true ⟨some true, true⟩ 1 true).2.1
      rfl).1,
   (onStop_auto_resolution true true StopParam.init 0 true).2.2,
   (onStop_auto_resolution false true StopParam.init 0 true).2.2⟩

/-- One policy update preserves the hook/registration invariant. -/
theorem StopParam.update_inv (env : Bool) (nv : Option Bool)
    (p : StopParam) (conns : Nat) (h : StopParam.inv p conns) :
    StopParam.inv (StopParam.update env nv p conns).1
      (StopParam.update env nv p conns).2 := by
  obtain ⟨h1, h2⟩ := h
  obtain ⟨pv, ph⟩ := p
  simp only at h2
  subst h2
  rcases nv with _ | nb
  · cases env <;> cases ph <;>
      simp [StopParam.inv, StopParam.update, StopParam.getSetString]
  · cases nb <;> cases ph <;>
      simp [StopParam.inv, StopParam.update, StopParam.getSetString]

/-- Any sequence of policy updates preserves the hook/registration
invariant. -/
theorem StopParam.runUpdates_inv (us : List (Bool × Option Bool)) :
    ∀ (p : StopParam) (conns : Nat), StopParam.inv p conns →
      StopParam.inv (StopParam.runUpdates p conns us).1
        (StopParam.runUpdates p conns us).2 := by
  induction us with
  | nil => exact fun p conns h => h
  | cons u rest ih =>
      intro p conns h
      obtain ⟨env, nv⟩ := u
      exact ih _ _ (StopParam.update_inv env nv p conns h)

/-- C5: after every sequence of on-stop policy updates from the initial
state, the hooked flag mirrors the resolved value and the registration
count is 1 when hooked and 0 otherwise — hence at most one registration at
any time; from any invariant state, enabling (also twice in a row) leaves
exactly one registration with the flag set, and disabling yields zero
registrations while disabling again is a no-op returning the identical
state. -/
theorem onStop_toggle_safety :
    (∀ us, StopParam.inv (StopParam.runUpdates StopParam.init 0 us).1
      (StopParam.runUpdates StopParam.init 0 us).2) ∧
    (∀ us, (StopParam.runUpdates StopParam.init 0 us).2 ≤ 1) ∧
    (∀ (p : StopParam) (conns : Nat) (env1 env2 : Bool),
      StopParam.inv p conns →
      StopParam.update env1 (some true) p conns =
        (⟨some true, true⟩, 1) ∧
      StopParam.update env2 (some true)
        (StopParam.update env1 (some true) p conns).1
        (StopParam.update env1 (some true) p conns).2 =
        (⟨some true, true⟩, 1)) ∧
    (∀ (p : StopParam) (conns : Nat) (env1 env2 : Bool),
      StopParam.inv p conns →
      StopParam.update env1 (some false) p conns =
        (⟨some false, false⟩, 0) ∧
      StopParam.update env2 (some false)
        (StopParam.update env1 (some false) p conns).1
        (StopParam.update env1 (some false) p conns).2 =
        StopParam.update env1 (some false) p conns) := by
  have hinit : StopParam.inv StopParam.init 0 :=
    ⟨by simp [StopParam.init], rfl⟩
  have hrun : ∀ us, StopParam.inv
      (StopParam.runUpdates StopParam.init 0 us).1
      (StopParam.runUpdates StopParam.init 0 us).2 :=
    fun us => StopParam.runUpdates_inv us StopParam.init 0 hinit
  refine ⟨hrun, ?_, ?_, ?_⟩
  · intro us
    obtain ⟨_, h2⟩ := hrun us
    rw [h2]
    cases (StopParam.runUpdates StopParam.init 0 us).1.isHooked <;> simp
  · intro p conns env1 env2 h
    obtain ⟨h1, h2⟩ := h
    obtain ⟨pv, ph⟩ := p
    simp only at h2
    subst h2
    cases ph <;>
      exact ⟨rfl, rfl⟩
  · intro p conns env1 env2 h
    obtain ⟨h1, h2⟩ := h
    obtain ⟨pv, ph⟩ := p
    simp only at h2
    subst h2
    cases ph <;>
      exact ⟨rfl, rfl⟩

/-- C5 witness: a concrete update run stays within one registration;
enabling twice from the initial state gives exactly one registration, and
the second of two disables is a no-op. -/
theorem onStop_toggle_safety_witness :
    (StopParam.runUpdates StopParam.init 0
      [(true, none), (false, some true), (true, some false)]).2 ≤ 1 ∧
    StopParam.update true (some true)
      (StopParam.update true (some true) StopParam.init 0).1
      (StopParam.update true (some true) StopParam.init 0).2 =
      (⟨some true, true⟩, 1) ∧
    StopParam.update false (some false)
      (StopParam.update true (some false) StopParam.init 0).1
      (StopParam.update true (some false) StopParam.init 0).2 =
      StopParam.update true (some false) StopParam.init 0 :=
  ⟨onStop_toggle_safety.2.1
      [(true, none), (false, some true), (true, some false)],
   ((onStop_toggle_safety.2.2.1 StopParam.init 0 true true
      ⟨by simp [StopParam.init], rfl⟩).2),
   ((onStop_toggle_safety.2.2.2 StopParam.init 0 true false
      ⟨by simp [StopParam.init], rfl⟩).2)⟩

/-- C9: if a hook `h` different from the controller's own `prompt` hook is
installed when the on-prompt policy is enabled, enabling saves `h` into
`prevHook` and installs the controller's hook, and a subsequent disable
restores the global prompt hook to exactly `h`. -/
theorem onPrompt_hook_round_trip (env1 env2 : Bool) (p : PromptParam)
    (h : Hook) (hne : h ≠ Hook.vvPrompt) :
    (PromptParam.update env1 (some true) p h).1.prevHook = h ∧
    (PromptParam.update env1 (some true) p h).2 = Hook.vvPrompt ∧
    (PromptParam.update env2 (some false)
      (PromptParam.update env1 (some true) p h).1
      (PromptParam.update env1 (some true) p h).2).2 = h := by
  have h1 : PromptParam.update env1 (some true) p h =
      (⟨some true, h⟩, Hook.vvPrompt) := by
    simp [PromptParam.update, PromptParam.getSetString, hne]
  rw [h1]
  exact ⟨rfl, rfl, rfl⟩

/-- C9 witness: an external hook survives an enable/disable round trip. -/
theorem onPrompt_hook_round_trip_witness :
    (PromptParam.update true (some true) ⟨some false, Hook.noHook⟩
      (Hook.ext 5)).1.prevHook = Hook.ext 5 ∧
    (PromptParam.update true (some true) ⟨some false, Hook.noHook⟩
      (Hook.ext 5)).2 = Hook.vvPrompt ∧
    (PromptParam.update false (some false)
      (PromptParam.update true (some true) ⟨some false, Hook.noHook⟩
        (Hook.ext 5)).1
      (PromptParam.update true (some true) ⟨some false, Hook.noHook⟩
        (Hook.ext 5)).2).2 = Hook.ext 5 :=
  onPrompt_hook_round_trip true false ⟨some false, Hook.noHook⟩
    (Hook.ext 5) (by decide)
